import Mathlib

/-!
Verification of the network-state reconciliation engine of the OVS container
lab orchestrator (`orchestrator.py`, `network_config_manager.py`).

The Python code is shallowly embedded: container-runtime state (`Dock`) and
network state (`Net`) are explicit records, every external command that
mutates state is recorded as an `Op` in a trace, and each Python function
becomes a Lean function threading `Net` and appending to the trace.
Fallible external commands whose outcome is not determined by the modelled
state (e.g. `ip link set` races, a container dying mid-bind) are driven by
Boolean oracles in an `Env` record, one per command site.
-/

namespace OvsLab

/-- Python `sub in s` (substring containment), on the character lists. -/
def strIn (sub s : String) : Bool := decide (sub.data <:+: s.data)

/-- Python `s[:n]` for strings. -/
def pyTake (s : String) (n : Nat) : String := ⟨s.data.take n⟩

/-- Python `s[n:]` for strings. -/
def pyDrop (s : String) (n : Nat) : String := ⟨s.data.drop n⟩

/-- Python `s.startswith(pre)`. -/
def pyStartsWith (s pre : String) : Bool := List.isPrefixOf pre.data s.data

/-- Python `s[-1]` as a one-character string (empty strings do not occur as
names in the modelled code). -/
def pyLastChar (s : String) : String :=
  match s.data.getLast? with
  | some c => ⟨[c]⟩
  | none => ""

/-- Helper for `pySplitWs`: walk the characters, accumulating the current
field (reversed), emitting a field at each run of spaces. -/
def splitWsAux : List Char → List Char → List String
  | [], acc => if acc.isEmpty then [] else [⟨acc.reverse⟩]
  | c :: rest, acc =>
    if c = ' ' then
      if acc.isEmpty then splitWsAux rest []
      else String.mk acc.reverse :: splitWsAux rest []
    else splitWsAux rest (c :: acc)

/-- Python `s.split()` restricted to space-separated strings: split on runs
of spaces, dropping empty fields. -/
def pySplitWs (s : String) : List String := splitWsAux s.data []

/-- Helper for `pySplitDot`: split at every dot, keeping empty fields. -/
def splitDotAux : List Char → List Char → List String
  | [], acc => [⟨acc.reverse⟩]
  | c :: rest, acc =>
    if c = '.' then String.mk acc.reverse :: splitDotAux rest []
    else splitDotAux rest (c :: acc)

/-- Python `s.split(".")`. -/
def pySplitDot (s : String) : List String := splitDotAux s.data []

/-- Python `sep.join(l)`. -/
def joinWith (sep : String) : List String → String
  | [] => ""
  | [x] => x
  | x :: rest => ⟨x.data ++ sep.data ++ (joinWith sep rest).data⟩

/-- Python `s.strip("()")`: remove leading and trailing parentheses. -/
def stripParens (s : String) : String :=
  ⟨((s.data.dropWhile (fun c => c = '(' ∨ c = ')')).reverse.dropWhile
      (fun c => c = '(' ∨ c = ')')).reverse⟩

/-- Python `".".join(ip.split(".")[:3]) + ".1"` (gateway derivation used by
`bind_container_to_ovn`). -/
def gwOfIp (ip : String) : String :=
  ⟨(joinWith "." ((pySplitDot ip).take 3)).data ++ ".1".data⟩

/-- Python `".".join(ip.split(".")[:-1])` (subnet derivation used by
`connect_container_to_bridge`, whose gateway is that followed by `.1`). -/
def subnetOfIp (ip : String) : String :=
  joinWith "." ((pySplitDot ip).dropLast)

/-- One container as seen by the container runtime: its name, whether it is
running, and its init-process id (`docker inspect` reports pid 0 for a
stopped container). -/
structure Container where
  name : String
  running : Bool
  pid : Nat
deriving DecidableEq, Repr

/-- Container-runtime state. None of the embedded functions mutate it. -/
structure Dock where
  containers : List Container
deriving DecidableEq, Repr

/-- An OVN logical switch as listed by `ovn-nbctl ls-list`. -/
structure OvnSwitch where
  name : String
  uuid : String
deriving DecidableEq, Repr

/-- An OVN logical switch port: its name, the switch it is on, its row uuid,
and its addresses string (the output of `lsp-get-addresses`, e.g.
`"<mac> <ip>"`). -/
structure OvnPort where
  name : String
  switch : String
  uuid : String
  addresses : String
deriving DecidableEq, Repr

/-- Mutable network state across the four stores the reconciler touches:
which containers have an `eth1` namespace interface, the ports on the
`br-int` bridge, the OVN logical switches and ports, and the host-side veth
interfaces. -/
structure Net where
  ethIfaces : List String
  ovsPorts : List String
  ovnSwitches : List OvnSwitch
  ovnPorts : List OvnPort
  hostVeths : List String
deriving DecidableEq, Repr

/-- Every state-mutating external command issued by the embedded functions. -/
inductive Op where
  | delNsIface (container : String)
  | delOvsPort (port : String)
  | delOvnPort (port : String)
  | delHostVeth (veth : String)
  | addVethPair (veth : String)
  | moveIfToNs (container : String)
  | setNsMac (container mac : String)
  | addNsIp (container ip : String)
  | setNsUp (container : String)
  | addNsRoute (container gw : String)
  | addOvsPort (port : String)
  | setIfaceExternalIds (port : String)
  | setHostUp (veth : String)
  | ethtoolOff (iface : String)
  | addOvnPort (switch port : String)
  | setOvnAddresses (port addrs : String)
  | setPortSecurity (port sec : String)
  | setOvnExternalIds (port : String)
  | restartController
deriving DecidableEq, Repr

/-- The four teardown operations of the repair path. -/
def Op.isTeardown : Op → Bool
  | .delNsIface _ => true
  | .delOvsPort _ => true
  | .delOvnPort _ => true
  | .delHostVeth _ => true
  | _ => false

/-- `docker inspect` by name. -/
def lookupContainer (d : Dock) (name : String) : Option Container :=
  d.containers.find? (fun c => c.name == name)

/-- Whether `docker inspect -f "{{.State.Running}}"` succeeds and prints
`true` for this name. -/
def containerRunning (d : Dock) (name : String) : Bool :=
  match lookupContainer d name with
  | some c => c.running
  | none => false

/-- Output lines of `docker ps --format "{{.Names}}"` after
`stdout.strip().split("\n")`: the running container names, or the single
empty line when none are running. -/
def dockerPs (d : Dock) : List String :=
  let names := (d.containers.filter (fun c => c.running)).map (fun c => c.name)
  if names = [] then [""] else names

/-- Stdout of `ovs-vsctl list-ports br-int` (one port per line). -/
def ovsListPortsStdout (net : Net) : String :=
  joinWith "\n" net.ovsPorts

/-- Host-side veth name derived from the container name: `veth-tg-<last
char>` for traffic generators, else `veth-<first 8 chars>` (orchestrator.py,
repeated at every site that derives the name). -/
def vethName (container_name : String) : String :=
  if pyStartsWith container_name "traffic-gen" then
    "veth-tg-" ++ pyLastChar container_name
  else
    "veth-" ++ pyTake container_name 8

/-- Whether `docker exec <c> ip link show eth1` exits 0: the container must
be running and its namespace must hold `eth1`. -/
def dockerExecHasEth1 (d : Dock) (net : Net) (c : String) : Bool :=
  containerRunning d c && net.ethIfaces.contains c

/-- The composite state dictionary built by
`NetworkReconciler.get_container_network_state` (the `ip_address` entry is
never assigned by the source and is omitted). -/
structure NetworkState where
  exists_ : Bool
  has_interface : Bool
  ovs_port_exists : Bool
  ovn_port_exists : Bool
  needs_repair : Bool
deriving DecidableEq, Repr

/-- Embedding of `NetworkReconciler.get_container_network_state`
(orchestrator.py lines 46-102). -/
def get_container_network_state (d : Dock) (net : Net) (container_name : String) :
    NetworkState :=
  match lookupContainer d container_name with
  | none => ⟨false, false, false, false, false⟩
  | some c =>
    if c.running = false then ⟨false, false, false, false, false⟩
    else
      let has_interface := dockerExecHasEth1 d net container_name
      let veth_name := vethName container_name
      let ovs_port_exists := strIn veth_name (ovsListPortsStdout net)
      let ovn_port_exists :=
        net.ovnPorts.any (fun p => p.name == "lsp-" ++ container_name)
      ⟨true, has_interface, ovs_port_exists, ovn_port_exists,
        true && (!has_interface || !ovs_port_exists || !ovn_port_exists)⟩

/-- Condition under which `NetworkReconciler.cleanup_stale_ovs_ports`
(orchestrator.py lines 104-142) deletes a bridge port: the name starts with
`veth-`, and no running container name (empty lines skipped) has the port
suffix as its first 8 characters. -/
def stalePort (d : Dock) (port : String) : Bool :=
  pyStartsWith port "veth-" &&
    !((dockerPs d).any (fun name =>
        (!(name == "")) && (pyTake name 8 == pyDrop port 5)))

/-- Embedding of `NetworkReconciler.cleanup_stale_ovs_ports`: the loop walks
a snapshot of the bridge port list and deletes every stale port; each
iteration only reads container-runtime state, so the loop is a filter. -/
def cleanup_stale_ovs_ports (d : Dock) (net : Net) : Net × List Op :=
  ({ net with ovsPorts := net.ovsPorts.filter (fun p => !(stalePort d p)) },
   (net.ovsPorts.filter (stalePort d)).map Op.delOvsPort)

/-- A line of `ovn-nbctl ls-list` or `lsp-list` output: `<uuid> (<name>)`.
This is the format the source itself parses, via `split()[1].strip("()")`,
when it reads the `ls-list` output in `cleanup_stale_ovn_ports`. -/
def nbctlListLine (uuid name : String) : String := uuid ++ " (" ++ name ++ ")"

/-- Logical port names deleted by `NetworkReconciler.cleanup_stale_ovn_ports`
(orchestrator.py lines 144-175): for every switch listed by `ls-list`, every
`lsp-list` line that is nonempty and starts with `lsp-` is parsed, and the
port is deleted when the name minus the `lsp-` marker is not a running
container. -/
def ovnStaleDeletions (d : Dock) (net : Net) : List String :=
  let running := dockerPs d
  (net.ovnSwitches.map (fun s => nbctlListLine s.uuid s.name)).flatMap
    (fun switch_line =>
      if switch_line ≠ "" then
        let switch_name := stripParens ((pySplitWs switch_line).getD 1 "")
        ((net.ovnPorts.filter (fun p => p.switch == switch_name)).map
            (fun p => nbctlListLine p.uuid p.name)).filterMap
          (fun port_line =>
            if (!(port_line == "")) && pyStartsWith port_line "lsp-" then
              let port_name := stripParens ((pySplitWs port_line).getD 1 "")
              let container_name := pyDrop port_name 4
              if !(running.contains container_name) then some port_name
              else none
            else none)
      else [])

/-- Embedding of `NetworkReconciler.cleanup_stale_ovn_ports`. -/
def cleanup_stale_ovn_ports (d : Dock) (net : Net) : Net × List Op :=
  let dels := ovnStaleDeletions d net
  ({ net with ovnPorts := net.ovnPorts.filter (fun p => !(dels.contains p.name)) },
   dels.map Op.delOvnPort)

/-- Container-runtime state for the garbage-collection scenarios: only the
traffic generator `traffic-gen-a` is running. -/
def gcBugDock : Dock := ⟨[⟨"traffic-gen-a", true, 100⟩]⟩

/-- Network state for the garbage-collection scenarios: the running traffic
generator is fully bound, and the stale workload `vpc-a-web` (no longer
running) left behind its bridge port and logical port. -/
def gcBugNet : Net :=
  { ethIfaces := ["traffic-gen-a"]
    ovsPorts := ["veth-tg-a", "veth-vpc-a-we"]
    ovnSwitches := [⟨"ls-vpc-a-web", "11aa"⟩, ⟨"ls-vpc-a-test", "22bb"⟩]
    ovnPorts := [⟨"lsp-vpc-a-web", "ls-vpc-a-web", "33cc", "02:aa 10.0.1.10"⟩,
                 ⟨"lsp-traffic-gen-a", "ls-vpc-a-test", "44dd", "02:bb 10.0.4.10"⟩]
    hostVeths := ["veth-tg-a"] }

/-- Container-runtime state for the C10 witness: nothing is running. -/
def gcFrameDock : Dock := ⟨[]⟩

/-- Network state for the C10 witness: one orphaned veth port and one
non-veth bridge port (an external bridge uplink). -/
def gcFrameNet : Net :=
  { ethIfaces := []
    ovsPorts := ["veth-dead1234", "br-ex"]
    ovnSwitches := []
    ovnPorts := []
    hostVeths := [] }

/-- Outcome of a Python call: a returned Boolean, or an uncaught exception. -/
inductive PyResult where
  | ok (b : Bool)
  | exc
deriving DecidableEq, Repr

/-- Oracles for the external-command outcomes that the modelled state does
not determine: the configured MAC (config-manager lookup), the randomly
generated MAC, and one success flag per fallible command site of
`connect_container_to_bridge` (conn...) and `bind_container_to_ovn`
(bind..., nbCreatePortOk for the logical-port creation block, verifyOk for
the final in-container verification probe). -/
structure Env where
  cfgMac : String → Option String
  genMac : String
  connVethAddOk : Bool
  connMvNetnsOk : Bool
  connSetMacOk : Bool
  connAddIpOk : Bool
  connSetUpOk : Bool
  connAddPortOk : Bool
  connSetHostUpOk : Bool
  nbCreatePortOk : Bool
  bindVethAddOk : Bool
  bindMvNetnsOk : Bool
  bindSetMacOk : Bool
  bindAddIpOk : Bool
  bindSetUpOk : Bool
  bindAddPortOk : Bool
  bindSetIfaceOk : Bool
  bindSetHostUpOk : Bool
  verifyOk : Bool

/-- The `if not mac_address and self.config_manager` fallback shared by
`connect_container_to_bridge`, `bind_container_to_ovn` and
`reconcile_container`: keep the caller MAC, else look the container up in
the configuration. -/
def withCfgMac (env : Env) (container_name : String) :
    Option String → Option String
  | some m => some m
  | none => env.cfgMac container_name

/-- The `if not mac_address: mac_address = self.generate_mac_address()`
fallback of `bind_container_to_ovn`. -/
def resolveMac (env : Env) : Option String → String
  | some m => m
  | none => env.genMac

/-- The optional set-MAC step of `connect_container_to_bridge`
(orchestrator.py lines 1013-1016): run only when a MAC is known; `none`
models the raising failure of the `check=True` command. -/
def connectMacStep (env : Env) (container_name : String)
    (mac_address : Option String) : Option (List Op) :=
  match mac_address with
  | some m =>
    if env.connSetMacOk then some [Op.setNsMac container_name m]
    else none
  | none => some []

/-- Embedding of `OVNManager.connect_container_to_bridge` (orchestrator.py
lines 965-1048). Every `check=True` command raises on failure and the
surrounding `except` returns False without any cleanup; `check=False`
commands never abort. -/
def connect_container_to_bridge (env : Env) (d : Dock) (net : Net)
    (container_name ip_address bridge : String) (mac_address : Option String) :
    Bool × Net × List Op :=
  let mac_address := withCfgMac env container_name mac_address
  match lookupContainer d container_name with
  | none => (false, net, [])
  | some ct =>
    if ct.pid = 0 then (false, net, [])
    else
      let veth_host := vethName container_name
      let net := { net with
        hostVeths := net.hostVeths.filter (fun v => !(v == veth_host)) }
      let ops := [Op.delHostVeth veth_host]
      if !env.connVethAddOk then (false, net, ops)
      else
        let net := { net with hostVeths := veth_host :: net.hostVeths }
        let ops := ops ++ [Op.addVethPair veth_host]
        if !env.connMvNetnsOk then (false, net, ops)
        else
          let net := { net with ethIfaces := container_name :: net.ethIfaces }
          let ops := ops ++ [Op.moveIfToNs container_name]
          match connectMacStep env container_name mac_address with
          | none => (false, net, ops)
          | some mops =>
            let ops := ops ++ mops
            if !env.connAddIpOk then (false, net, ops)
            else
              let ops := ops ++ [Op.addNsIp container_name ip_address]
              if !env.connSetUpOk then (false, net, ops)
              else
                let ops := ops ++ [Op.setNsUp container_name]
                let ops := if bridge == "br-int" then
                    ops ++ [Op.addNsRoute container_name
                      ⟨(subnetOfIp ip_address).data ++ ".1".data⟩]
                  else ops
                if !env.connAddPortOk then (false, net, ops)
                else
                  let net := if net.ovsPorts.contains veth_host then net
                    else { net with ovsPorts := veth_host :: net.ovsPorts }
                  let ops := ops ++ [Op.addOvsPort veth_host]
                  if !env.connSetHostUpOk then (false, net, ops)
                  else
                    let ops := ops ++ [Op.setHostUp veth_host] ++
                      [Op.ethtoolOff veth_host, Op.ethtoolOff veth_host,
                       Op.ethtoolOff veth_host, Op.ethtoolOff container_name,
                       Op.ethtoolOff container_name, Op.ethtoolOff container_name]
                    (true, net, ops)

/-- Remove the host-side veth pair: the cleanup run by
`bind_container_to_ovn` on step failures after veth creation. -/
def vethCleanup (net : Net) (ops : List Op) (veth : String) : Net × List Op :=
  ({ net with hostVeths := net.hostVeths.filter (fun v => !(v == veth)) },
   ops ++ [Op.delHostVeth veth])

/-- Final stage of the physical attachment in `bind_container_to_ovn`:
bring the host veth up (raises inside the try, so failure cleans up the
veth), disable offloads, then run the in-container verification, whose
failure returns False WITHOUT cleanup. -/
def bindFinish (env : Env) (d : Dock) (net : Net)
    (container_name veth_host : String) (ops : List Op) :
    PyResult × Net × List Op :=
  if !env.bindSetHostUpOk then
    (.ok false, (vethCleanup net ops veth_host).1,
      (vethCleanup net ops veth_host).2)
  else
    let ops := ops ++ [Op.setHostUp veth_host] ++
      [Op.ethtoolOff veth_host, Op.ethtoolOff veth_host, Op.ethtoolOff veth_host,
       Op.ethtoolOff container_name, Op.ethtoolOff container_name,
       Op.ethtoolOff container_name]
    if !(env.verifyOk && dockerExecHasEth1 d net container_name) then
      (.ok false, net, ops)
    else
      (.ok true, net, ops)

/-- Attachment of the host veth end to the integration bridge in
`bind_container_to_ovn` (orchestrator.py lines 1251-1299): if the port is
not yet on the bridge, add it with all external-ids atomically (failure
deletes the veth pair), otherwise update the external-ids; then finish. -/
def bindAttach (env : Env) (d : Dock) (net : Net)
    (container_name veth_host : String) (ops : List Op) :
    PyResult × Net × List Op :=
  if !(strIn veth_host (ovsListPortsStdout net)) then
    if !env.bindAddPortOk then
      (.ok false, (vethCleanup net ops veth_host).1,
        (vethCleanup net ops veth_host).2)
    else
      bindFinish env d { net with ovsPorts := veth_host :: net.ovsPorts }
        container_name veth_host (ops ++ [Op.addOvsPort veth_host])
  else
    if !env.bindSetIfaceOk then
      (.ok false, (vethCleanup net ops veth_host).1,
        (vethCleanup net ops veth_host).2)
    else
      bindFinish env d net container_name veth_host
        (ops ++ [Op.setIfaceExternalIds veth_host])

/-- In-namespace configuration of the container end in
`bind_container_to_ovn` (orchestrator.py lines 1211-1249): set MAC, add the
IP, bring the link up (each failure deletes the veth pair), add the default
route (failure ignored), then attach the host end. -/
def bindConfigure (env : Env) (d : Dock) (net : Net)
    (container_name ip_address mac veth_host : String) (ops : List Op) :
    PyResult × Net × List Op :=
  if !env.bindSetMacOk then
    (.ok false, (vethCleanup net ops veth_host).1,
      (vethCleanup net ops veth_host).2)
  else
    let ops := ops ++ [Op.setNsMac container_name mac]
    if !env.bindAddIpOk then
      (.ok false, (vethCleanup net ops veth_host).1,
        (vethCleanup net ops veth_host).2)
    else
      let ops := ops ++ [Op.addNsIp container_name ip_address]
      if !env.bindSetUpOk then
        (.ok false, (vethCleanup net ops veth_host).1,
          (vethCleanup net ops veth_host).2)
      else
        let ops := ops ++ [Op.setNsUp container_name]
        let ops := ops ++ [Op.addNsRoute container_name (gwOfIp ip_address)]
        bindAttach env d net container_name veth_host ops

/-- Veth-pair creation in `bind_container_to_ovn` (orchestrator.py lines
1186-1209): delete any leftover host veth, create the pair (failure returns
without cleanup — nothing was created), move the container end into the
namespace (failure deletes the pair), then configure. -/
def bindCreateVeth (env : Env) (d : Dock) (net : Net)
    (container_name ip_address mac veth_host : String) (ops : List Op) :
    PyResult × Net × List Op :=
  let net := { net with
    hostVeths := net.hostVeths.filter (fun v => !(v == veth_host)) }
  let ops := ops ++ [Op.delHostVeth veth_host]
  if !env.bindVethAddOk then (.ok false, net, ops)
  else
    let net := { net with hostVeths := veth_host :: net.hostVeths }
    let ops := ops ++ [Op.addVethPair veth_host]
    if !env.bindMvNetnsOk then
      (.ok false, (vethCleanup net ops veth_host).1,
        (vethCleanup net ops veth_host).2)
    else
      let net := { net with ethIfaces := container_name :: net.ethIfaces }
      let ops := ops ++ [Op.moveIfToNs container_name]
      bindConfigure env d net container_name ip_address mac veth_host ops

/-- Physical attachment section of `bind_container_to_ovn` (orchestrator.py
lines 1155-1314), from the MAC fallback and PID lookup down to the final
verification: the pre-creation checks (missing PID, veth already attached)
return False without touching anything, then creation, configuration,
attachment and verification follow. -/
def bindPhysical (env : Env) (d : Dock) (net : Net)
    (container_name ip_address : String) (mac_address : Option String)
    (ops : List Op) : PyResult × Net × List Op :=
  let mac := resolveMac env mac_address
  match lookupContainer d container_name with
  | none => (.ok false, net, ops)
  | some ct =>
    if ct.pid = 0 then (.ok false, net, ops)
    else
      let veth_host := vethName container_name
      if strIn veth_host (ovsListPortsStdout net) then (.ok false, net, ops)
      else
        bindCreateVeth env d net container_name ip_address mac veth_host ops

/-- Stored-address reuse of `bind_container_to_ovn` (orchestrator.py lines
1066-1075): when the logical port exists with a nonempty addresses string
and no MAC was supplied by the caller or the config, take the first
whitespace-separated token of the stored addresses as the MAC. The
caller-supplied IP is never replaced. -/
def reuseMac (existing : Option OvnPort) (mac_address : Option String) :
    Option String :=
  match existing with
  | some p =>
    match mac_address with
    | none =>
      if !(p.addresses == "") then some ((pySplitWs p.addresses).getD 0 "")
      else none
    | some m => some m
  | none => mac_address

/-- Embedding of `OVNManager.bind_container_to_ovn` (orchestrator.py lines
1051-1320): config MAC fallback, logical-port existence check with stored-MAC
reuse, idempotency short-circuit, logical-port creation, then either the
metadata-only path for an already-connected container or the physical
attachment. The metadata update on the already-connected path runs with
`check=True` OUTSIDE the try block, so its failure is an uncaught
exception. -/
def bind_container_to_ovn (env : Env) (d : Dock) (net : Net)
    (container_name switch_name ip_address : String)
    (mac_address : Option String) : PyResult × Net × List Op :=
  let mac_address := withCfgMac env container_name mac_address
  let port_name := "lsp-" ++ container_name
  let existing := net.ovnPorts.find? (fun p => p.name == port_name)
  let port_exists := existing.isSome
  let mac_address := reuseMac existing mac_address
  let container_connected := dockerExecHasEth1 d net container_name
  if port_exists && container_connected then (.ok true, net, [])
  else
    let createStep : Option (Option String × Net × List Op) :=
      if !port_exists then
        let mac := resolveMac env mac_address
        let addrs : String := ⟨mac.data ++ " ".data ++ ip_address.data⟩
        if env.nbCreatePortOk &&
            net.ovnSwitches.any (fun s => s.name == switch_name) then
          some (some mac,
            { net with ovnPorts :=
                ⟨port_name, switch_name, "", addrs⟩ :: net.ovnPorts },
            [Op.addOvnPort switch_name port_name,
             Op.setOvnAddresses port_name addrs,
             Op.setPortSecurity port_name
               (if container_name == "nat-gateway" then "" else addrs),
             Op.setOvnExternalIds port_name])
        else none
      else some (mac_address, net, [])
    match createStep with
    | none => (.ok false, net, [])
    | some (mac_address, net, ops) =>
      if container_connected then
        let expected_veth := vethName container_name
        if !(strIn expected_veth (ovsListPortsStdout net)) then
          bindPhysical env d net container_name ip_address mac_address ops
        else
          if env.bindSetIfaceOk then
            (.ok true, net, ops ++ [Op.setIfaceExternalIds expected_veth])
          else (.exc, net, ops)
      else
        bindPhysical env d net container_name ip_address mac_address ops

/-- Teardown operations of the repair branch of
`NetworkReconciler.reconcile_container` (orchestrator.py lines 204-243):
delete the namespace interface if probed present, the bridge port if probed
present, the host veth unconditionally, and the logical port if probed
present. -/
def teardownOps (st : NetworkState) (container_name : String) : List Op :=
  (if st.has_interface then [Op.delNsIface container_name] else []) ++
  (if st.ovs_port_exists then [Op.delOvsPort (vethName container_name)] else []) ++
  [Op.delHostVeth (vethName container_name)] ++
  (if st.ovn_port_exists then [Op.delOvnPort ("lsp-" ++ container_name)] else [])

/-- State effect of the teardown section of `reconcile_container`. -/
def teardownNet (st : NetworkState) (container_name : String) (net : Net) : Net :=
  let net := if st.has_interface then
      { net with ethIfaces := net.ethIfaces.filter (fun x => !(x == container_name)) }
    else net
  let veth := vethName container_name
  let net := if st.ovs_port_exists then
      { net with ovsPorts := net.ovsPorts.filter (fun p => !(p == veth)) }
    else net
  let net := { net with hostVeths := net.hostVeths.filter (fun v => !(v == veth)) }
  if st.ovn_port_exists then
    { net with ovnPorts :=
        net.ovnPorts.filter (fun p => !(p.name == "lsp-" ++ container_name)) }
  else net

/-- Embedding of `NetworkReconciler.reconcile_container` (orchestrator.py
lines 177-254): probe, return False for a missing workload, return True for
a healthy one, otherwise tear everything down and rebuild through
`connect_container_to_bridge` and `bind_container_to_ovn`. -/
def reconcile_container (env : Env) (d : Dock) (net : Net)
    (container_name ip_address switch_name : String)
    (mac_address : Option String) : PyResult × Net × List Op :=
  let state := get_container_network_state d net container_name
  let mac_address := withCfgMac env container_name mac_address
  if state.exists_ = false then (.ok false, net, [])
  else if state.needs_repair = false then (.ok true, net, [])
  else
    match lookupContainer d container_name with
    | none => (.ok false, net, [])
    | some _ =>
      let net := teardownNet state container_name net
      let ops := teardownOps state container_name
      let c1 := connect_container_to_bridge env d net container_name
        ip_address "br-int" mac_address
      if c1.1 then
        let b := bind_container_to_ovn env d c1.2.1 container_name
          switch_name ip_address mac_address
        match b.1 with
        | .ok true => (.ok true, b.2.1, ops ++ c1.2.2 ++ b.2.2)
        | .ok false => (.ok false, b.2.1, ops ++ c1.2.2 ++ b.2.2)
        | .exc => (.exc, b.2.1, ops ++ c1.2.2 ++ b.2.2)
      else (.ok false, c1.2.1, ops ++ c1.2.2)

/-- The per-workload loop of `NetworkReconciler.reconcile_all`: sequential,
one success/failure tally per configured workload, an uncaught exception
counted as a failure by the per-item except clause. Returns
(success count, failure count, final state, trace). -/
def reconcileLoop (env : Env) (d : Dock) :
    Net → List (String × String × String) → Nat × Nat × Net × List Op
  | net, [] => (0, 0, net, [])
  | net, (c, ip, sw) :: rest =>
    let r := reconcile_container env d net c ip sw none
    let acc := reconcileLoop env d r.2.1 rest
    match r.1 with
    | .ok true => (acc.1 + 1, acc.2.1, acc.2.2.1, r.2.2 ++ acc.2.2.2)
    | _ => (acc.1, acc.2.1 + 1, acc.2.2.1, r.2.2 ++ acc.2.2.2)

/-- Embedding of `NetworkReconciler.reconcile_all` (orchestrator.py lines
256-315): garbage-collect stale OVS then OVN ports, reconcile every
configured workload sequentially, and restart ovn-controller once at the
end when the success count is positive. Returns True iff no workload
failed. -/
def reconcile_all (env : Env) (d : Dock) (net : Net)
    (containers : List (String × String × String)) : Bool × Net × List Op :=
  let g1 := cleanup_stale_ovs_ports d net
  let g2 := cleanup_stale_ovn_ports d g1.1
  let r := reconcileLoop env d g2.1 containers
  (r.2.1 == 0, r.2.2.1,
   g1.2 ++ g2.2 ++ r.2.2.2 ++
     (if r.1 > 0 then [Op.restartController] else []))

/-- Embedding of the orchestrator main dispatch for the `reconcile` command
without `--container` (orchestrator.py lines 2678-2680): process exit status
0 iff `reconcile_all` returned True. -/
def mainReconcileAllExit (env : Env) (d : Dock) (net : Net)
    (containers : List (String × String × String)) : Nat :=
  if (reconcile_all env d net containers).1 then 0 else 1

/-- Whether a trace deletes the host-side veth at some point after an
occurrence of its creation (the cleanup demanded by the spec on binder step
failures after veth creation). -/
def cleansUpAfter (veth : String) : List Op → Bool
  | [] => false
  | o :: rest =>
    if o = Op.addVethPair veth then decide (Op.delHostVeth veth ∈ rest)
    else cleansUpAfter veth rest

/-- Oracle environment in which every external command succeeds, no MAC is
configured, and generated MACs take a fixed sample value. -/
def allOkEnv : Env :=
  { cfgMac := fun _ => none
    genMac := "02:11:22:33:44:55"
    connVethAddOk := true, connMvNetnsOk := true, connSetMacOk := true
    connAddIpOk := true, connSetUpOk := true, connAddPortOk := true
    connSetHostUpOk := true, nbCreatePortOk := true
    bindVethAddOk := true, bindMvNetnsOk := true, bindSetMacOk := true
    bindAddIpOk := true, bindSetUpOk := true, bindAddPortOk := true
    bindSetIfaceOk := true, bindSetHostUpOk := true, verifyOk := true }

/-- Environment in which every step succeeds but the final in-container
verification probe fails (the container died between the bind steps and the
verification). -/
def verifyFailEnv : Env := { allOkEnv with verifyOk := false }

/-- Environment in which attaching the host veth end to the bridge fails
and everything else succeeds. -/
def addPortFailEnv : Env := { allOkEnv with bindAddPortOk := false }

/-- Container-runtime state for the binder scenarios: one running workload. -/
def bindDock : Dock := ⟨[⟨"vpc-a-web", true, 4242⟩]⟩

/-- Network state for the binder scenarios: the logical switch exists, with
no logical port and no attachment yet for the workload. -/
def bindNetFresh : Net :=
  { ethIfaces := []
    ovsPorts := []
    ovnSwitches := [⟨"ls-vpc-a-web", "aa11"⟩]
    ovnPorts := []
    hostVeths := [] }

/-- Container-runtime state for the address-reuse scenarios. -/
def reuseDock : Dock := ⟨[⟨"app1", true, 5⟩]⟩

/-- Network state for the address-reuse scenarios: the logical port
`lsp-app1` already exists with stored addresses `02:aa 10.0.0.5`, but the
workload has no attachment. -/
def reuseNet : Net :=
  { ethIfaces := []
    ovsPorts := []
    ovnSwitches := [⟨"ls-a", "s1"⟩]
    ovnPorts := [⟨"lsp-app1", "ls-a", "u1", "02:aa 10.0.0.5"⟩]
    hostVeths := [] }

/-- Network state for the repair scenarios: the workload `app1` is running
with its namespace interface and logical port present but the bridge port
missing, so the probe reports `needs_repair`. -/
def repairNet : Net :=
  { ethIfaces := ["app1"]
    ovsPorts := []
    ovnSwitches := [⟨"ls-a", "s1"⟩]
    ovnPorts := [⟨"lsp-app1", "ls-a", "u1", "02:aa 10.0.0.5"⟩]
    hostVeths := ["veth-app1"] }

/-- Container-runtime state for the healthy-batch scenario. -/
def healthyDock : Dock := ⟨[⟨"c1", true, 7⟩]⟩

/-- Network state in which the single configured workload `c1` is fully
healthy across all three layers. -/
def healthyNet : Net :=
  { ethIfaces := ["c1"]
    ovsPorts := ["veth-c1"]
    ovnSwitches := [⟨"ls-a", "9a"⟩]
    ovnPorts := [⟨"lsp-c1", "ls-a", "8b", "02:aa 10.0.0.2"⟩]
    hostVeths := ["veth-c1"] }

/-- Workload configuration list for the healthy-batch scenario. -/
def healthyCfg : List (String × String × String) := [("c1", "10.0.0.2", "ls-a")]

/-- Workload configuration list naming a workload that is not running. -/
def ghostCfg : List (String × String × String) := [("ghost", "10.0.0.3", "ls-a")]

/-- One container entry of the declarative network configuration
(network_config_manager.py `ContainerConfig`; the fields `validate_config`
reads). -/
structure ContainerCfg where
  name : String
  ip : String
  mac : Option String
  switch : String
  host : String
  vpc : String
deriving DecidableEq, Repr

/-- A parsed IPv4 network: first address and prefix length. A VPC whose
`cidr` string `ipaddress.ip_network` rejects is modelled as `none` below. -/
structure Cidr where
  base : Nat
  plen : Nat
deriving DecidableEq, Repr

/-- Number of addresses in the network. -/
def cidrSize (c : Cidr) : Nat := 2 ^ (32 - c.plen)

/-- Embedding of `ipaddress.ip_network(..).overlaps(..)`: the address ranges
intersect. -/
def cidrOverlaps (a b : Cidr) : Bool :=
  decide (a.base < b.base + cidrSize b) && decide (b.base < a.base + cidrSize a)

/-- One VPC entry of the declarative network configuration (the fields
`validate_config` reads; `cidr` is the parse result of the CIDR string). -/
structure VpcCfg where
  name : String
  tenant : String
  cidr : Option Cidr
deriving DecidableEq, Repr

/-- The declarative network configuration as loaded by
`NetworkConfigManager.load_config`: host names, container entries (dict
values in insertion order, names unique), VPC entries. -/
structure NetworkConfig where
  hosts : List String
  containers : List ContainerCfg
  vpcs : List VpcCfg
deriving DecidableEq, Repr

/-- Python string formatting of an optional MAC (`None` prints as "None"). -/
def macRepr : Option String → String
  | some m => m
  | none => "None"

/-- Duplicate-IP loop of `validate_config` (network_config_manager.py lines
260-266): `seen` is the `ips_seen` dict as an association list with the most
recent binding first. -/
def dupIpErrors : List ContainerCfg → List (String × String) → List String
  | [], _ => []
  | c :: rest, seen =>
    (match seen.find? (fun kv => kv.1 == c.ip) with
     | some kv =>
       ["Duplicate IP " ++ c.ip ++ ": " ++ c.name ++ " and " ++ kv.2]
     | none => []) ++ dupIpErrors rest ((c.ip, c.name) :: seen)

/-- Duplicate-MAC loop of `validate_config` (lines 268-273); the dict key is
the optional MAC itself, so two entries with no MAC also collide. -/
def dupMacErrors : List ContainerCfg → List (Option String × String) → List String
  | [], _ => []
  | c :: rest, seen =>
    (match seen.find? (fun kv => kv.1 == c.mac) with
     | some kv =>
       ["Duplicate MAC " ++ macRepr c.mac ++ ": " ++ c.name ++ " and " ++ kv.2]
     | none => []) ++ dupMacErrors rest ((c.mac, c.name) :: seen)

/-- CIDR loop of `validate_config` (lines 284-295): each parseable VPC
network is compared against all previously accumulated ones, then appended;
an unparseable CIDR contributes an invalid-CIDR error. -/
def cidrOverlapErrors : List VpcCfg → List (Cidr × String) → List String
  | [], _ => []
  | v :: rest, acc =>
    match v.cidr with
    | none => ("Invalid CIDR for " ++ v.name) :: cidrOverlapErrors rest acc
    | some net =>
      (acc.filterMap (fun oc =>
        if cidrOverlaps net oc.1 then
          some ("CIDR overlap: " ++ v.name ++ " and " ++ oc.2)
        else none)) ++
      cidrOverlapErrors rest (acc ++ [(net, v.name)])

/-- Embedding of `NetworkConfigManager.validate_config`
(network_config_manager.py lines 256-296). -/
def validate_config (cfg : NetworkConfig) : List String :=
  dupIpErrors cfg.containers [] ++
  dupMacErrors cfg.containers [] ++
  (cfg.containers.filterMap (fun c =>
    if !(cfg.hosts.contains c.host) then
      some ("Container " ++ c.name ++ " references unknown host " ++ c.host)
    else none)) ++
  (cfg.containers.filterMap (fun c =>
    if (!((cfg.vpcs.map VpcCfg.name).contains c.vpc)) && (!(c.vpc == "transit")) then
      some ("Container " ++ c.name ++ " references unknown VPC " ++ c.vpc)
    else none)) ++
  cidrOverlapErrors cfg.vpcs []

/-- Embedding of the `validate` command of the network_config_manager module
entry point (network_config_manager.py lines 345-355): exit 1 iff
`validate_config` reports errors. -/
def ncmValidateExit (cfg : NetworkConfig) : Nat :=
  if validate_config cfg = [] then 0 else 1

/-- Steps of the orchestrator main dispatch relevant to topology setup. -/
inductive MainStep where
  | loadConfig
  | setupTopology
deriving DecidableEq, Repr

/-- Embedding, at dispatch granularity, of orchestrator main handling the
`setup` command (orchestrator.py lines 2456-2466 and 2517-2519): the config
is loaded and `setup_topology` is invoked unconditionally —
`validate_config` is never called anywhere in orchestrator.py. -/
def setupCommand (_cfg : NetworkConfig) : List MainStep :=
  [MainStep.loadConfig, MainStep.setupTopology]

/-- A configuration in which two containers share the IP `10.0.1.10`. -/
def dupIpConfig : NetworkConfig :=
  { hosts := ["host-1"]
    containers :=
      [⟨"web-1", "10.0.1.10", some "02:aa:aa:aa:aa:01", "ls-a", "host-1", "vpc-a"⟩,
       ⟨"web-2", "10.0.1.10", some "02:aa:aa:aa:aa:02", "ls-a", "host-1", "vpc-a"⟩]
    vpcs := [⟨"vpc-a", "tenant-a", some ⟨167772416, 24⟩⟩] }

theorem probe_exists_eq (d : Dock) (net : Net) (c : String) :
    (get_container_network_state d net c).exists_ = containerRunning d c := by
  unfold get_container_network_state containerRunning
  cases hl : lookupContainer d c with
  | none => rfl
  | some ct => cases hr : ct.running <;> simp [hr]

theorem probe_needs_repair_eq (d : Dock) (net : Net) (c : String) :
    (get_container_network_state d net c).needs_repair =
      ((get_container_network_state d net c).exists_ &&
        (!(get_container_network_state d net c).has_interface ||
         !(get_container_network_state d net c).ovs_port_exists ||
         !(get_container_network_state d net c).ovn_port_exists)) := by
  unfold get_container_network_state
  cases hl : lookupContainer d c with
  | none => rfl
  | some ct => cases hr : ct.running <;> simp [hr]

/-- C1: the composite state returned by the prober has `needs_repair` true
iff the workload is running and at least one of the namespace-interface,
virtual-switch-port, logical-port flags it reports is false. -/
theorem C1_needs_repair_iff (d : Dock) (net : Net) (c : String) :
    (get_container_network_state d net c).needs_repair = true ↔
      (containerRunning d c = true ∧
        ((get_container_network_state d net c).has_interface = false ∨
         (get_container_network_state d net c).ovs_port_exists = false ∨
         (get_container_network_state d net c).ovn_port_exists = false)) := by
  rw [probe_needs_repair_eq, probe_exists_eq]
  cases containerRunning d c <;>
    cases h1 : (get_container_network_state d net c).has_interface <;>
      cases h2 : (get_container_network_state d net c).ovs_port_exists <;>
        cases h3 : (get_container_network_state d net c).ovn_port_exists <;>
          simp

/-- C10: the OVS garbage collector deletes a bridge port only if its name
starts with `veth-`, and every bridge port whose name does not start with
`veth-` is left on the bridge unchanged. -/
theorem C10_gc_deletes_only_veth_ports (d : Dock) (net : Net) :
    (∀ o ∈ (cleanup_stale_ovs_ports d net).2, ∃ p, o = Op.delOvsPort p ∧
        p ∈ net.ovsPorts ∧ pyStartsWith p "veth-" = true) ∧
    (∀ q ∈ net.ovsPorts, pyStartsWith q "veth-" = false →
        q ∈ (cleanup_stale_ovs_ports d net).1.ovsPorts) := by
  constructor
  · intro o ho
    simp only [cleanup_stale_ovs_ports, List.mem_map, List.mem_filter] at ho
    obtain ⟨p, ⟨hp, hs⟩, rfl⟩ := ho
    refine ⟨p, rfl, hp, ?_⟩
    exact (Bool.and_eq_true _ _ |>.mp hs).1
  · intro q hq hv
    simp only [cleanup_stale_ovs_ports, List.mem_filter]
    refine ⟨hq, ?_⟩
    simp [stalePort, hv]

theorem C10_gc_deletes_only_veth_ports_witness :
    (∃ p, Op.delOvsPort "veth-dead1234" = Op.delOvsPort p ∧
        p ∈ gcFrameNet.ovsPorts ∧ pyStartsWith p "veth-" = true) ∧
    "br-ex" ∈ (cleanup_stale_ovs_ports gcFrameDock gcFrameNet).1.ovsPorts := by
  refine ⟨(C10_gc_deletes_only_veth_ports gcFrameDock gcFrameNet).1 _ ?_,
          (C10_gc_deletes_only_veth_ports gcFrameDock gcFrameNet).2 "br-ex" ?_ ?_⟩ <;>
    decide

/-- C2: at a state with one stale workload (`vpc-a-web`) and one running
workload (`traffic-gen-a`), the garbage-collection phase deletes the RUNNING
traffic generator bridge port `veth-tg-a` (its `tg-a` suffix never equals
the first 8 characters of a running container name), and deletes no logical
port at all (every `lsp-list` output line is `<uuid> (<name>)` and never
starts with `lsp-`), so the stale `lsp-vpc-a-web` survives — against the
spec, which demands that exactly the stale workloads lose both ports. -/
theorem C2_gc_wrong_on_traffic_gen_and_ovn :
    (cleanup_stale_ovs_ports gcBugDock gcBugNet).2 =
      [Op.delOvsPort "veth-tg-a", Op.delOvsPort "veth-vpc-a-we"] ∧
    containerRunning gcBugDock "traffic-gen-a" = true ∧
    vethName "traffic-gen-a" = "veth-tg-a" ∧
    (cleanup_stale_ovn_ports gcBugDock
        (cleanup_stale_ovs_ports gcBugDock gcBugNet).1).2 = [] ∧
    containerRunning gcBugDock "vpc-a-web" = false ∧
    "lsp-vpc-a-web" ∈ ((cleanup_stale_ovn_ports gcBugDock
        (cleanup_stale_ovs_ports gcBugDock gcBugNet).1).1.ovnPorts.map
          OvnPort.name) := by
  decide

theorem probe_no_repair_of_healthy (d : Dock) (net : Net) (c : String)
    (hif : (get_container_network_state d net c).has_interface = true)
    (hovs : (get_container_network_state d net c).ovs_port_exists = true)
    (hovn : (get_container_network_state d net c).ovn_port_exists = true) :
    (get_container_network_state d net c).needs_repair = false := by
  rw [probe_needs_repair_eq, hif, hovs, hovn]
  simp

/-- C5: when the probe reports the workload fully healthy (running with all
three layer flags true), `reconcile_container` returns True, leaves the
state untouched, and issues no mutating operation at all. -/
theorem C5_healthy_reconcile_is_noop (env : Env) (d : Dock) (net : Net)
    (c ip sw : String) (mac : Option String)
    (hex : (get_container_network_state d net c).exists_ = true)
    (hif : (get_container_network_state d net c).has_interface = true)
    (hovs : (get_container_network_state d net c).ovs_port_exists = true)
    (hovn : (get_container_network_state d net c).ovn_port_exists = true) :
    reconcile_container env d net c ip sw mac = (.ok true, net, []) := by
  have hnr := probe_no_repair_of_healthy d net c hif hovs hovn
  unfold reconcile_container
  simp [hex, hnr]

theorem C5_healthy_reconcile_is_noop_witness :
    reconcile_container allOkEnv healthyDock healthyNet "c1" "10.0.0.2" "ls-a"
      none = (.ok true, healthyNet, []) :=
  C5_healthy_reconcile_is_noop allOkEnv healthyDock healthyNet "c1" "10.0.0.2"
    "ls-a" none (by decide) (by decide) (by decide) (by decide)

theorem probe_not_running (d : Dock) (c : String)
    (h : containerRunning d c = false) (net : Net) :
    get_container_network_state d net c = ⟨false, false, false, false, false⟩ := by
  unfold containerRunning at h
  unfold get_container_network_state
  cases hl : lookupContainer d c with
  | none => rfl
  | some ct =>
    rw [hl] at h
    simp only at h
    simp [h]

theorem reconcile_not_running (env : Env) (d : Dock) (c ip sw : String)
    (mac : Option String) (h : containerRunning d c = false) (net : Net) :
    reconcile_container env d net c ip sw mac = (.ok false, net, []) := by
  unfold reconcile_container
  rw [probe_not_running d c h net]
  simp

theorem reconcileLoop_fail_pos (env : Env) (d : Dock) (c ip sw : String)
    (h : containerRunning d c = false) :
    ∀ (cfg : List (String × String × String)) (net : Net), (c, ip, sw) ∈ cfg →
      0 < (reconcileLoop env d net cfg).2.1 := by
  intro cfg
  induction cfg with
  | nil => intro net hin; cases hin
  | cons hd tl ih =>
    intro net hin
    obtain ⟨c', ip', sw'⟩ := hd
    rcases List.mem_cons.mp hin with heq | htl
    · rw [Prod.mk.injEq, Prod.mk.injEq] at heq
      obtain ⟨rfl, rfl, rfl⟩ := heq
      simp only [reconcileLoop]
      rw [reconcile_not_running env d c ip sw none h net]
      simp
    · have hrec := ih (reconcile_container env d net c' ip' sw' none).2.1 htl
      simp only [reconcileLoop]
      cases h1 : (reconcile_container env d net c' ip' sw' none).1 with
      | ok b => cases b <;> (simp [h1]; try omega)
      | exc => simp [h1]; try omega

/-- C9: a configured workload that does not exist or is not running probes
as all-false with `needs_repair` false, its reconciliation returns False
with no mutating operation, and its presence in the batch configuration
makes `reconcile_all` return False and the process exit status 1. -/
theorem C9_not_running_counts_as_failure (env : Env) (d : Dock) (net : Net)
    (c ip sw : String) (cfg : List (String × String × String))
    (h : containerRunning d c = false) (hin : (c, ip, sw) ∈ cfg) :
    get_container_network_state d net c = ⟨false, false, false, false, false⟩ ∧
    reconcile_container env d net c ip sw none = (.ok false, net, []) ∧
    (reconcile_all env d net cfg).1 = false ∧
    mainReconcileAllExit env d net cfg = 1 := by
  have hall : (reconcile_all env d net cfg).1 = false := by
    have hp := reconcileLoop_fail_pos env d c ip sw h cfg
      (cleanup_stale_ovn_ports d (cleanup_stale_ovs_ports d net).1).1 hin
    unfold reconcile_all
    simp only [beq_eq_false_iff_ne]
    omega
  refine ⟨probe_not_running d c h net,
    reconcile_not_running env d c ip sw none h net, hall, ?_⟩
  unfold mainReconcileAllExit
  rw [hall]
  simp

theorem C9_not_running_counts_as_failure_witness :
    get_container_network_state gcFrameDock gcFrameNet "ghost" =
      ⟨false, false, false, false, false⟩ ∧
    reconcile_container allOkEnv gcFrameDock gcFrameNet "ghost" "10.0.0.3"
      "ls-a" none = (.ok false, gcFrameNet, []) ∧
    (reconcile_all allOkEnv gcFrameDock gcFrameNet ghostCfg).1 = false ∧
    mainReconcileAllExit allOkEnv gcFrameDock gcFrameNet ghostCfg = 1 :=
  C9_not_running_counts_as_failure allOkEnv gcFrameDock gcFrameNet "ghost"
    "10.0.0.3" "ls-a" ghostCfg (by decide) (by decide)

theorem teardownOps_all (st : NetworkState) (c : String) :
    (teardownOps st c).all Op.isTeardown = true := by
  obtain ⟨e, hi, ov, onp, nr⟩ := st
  cases hi <;> cases ov <;> cases onp <;> rfl

theorem teardown_mem_delNsIface (st : NetworkState) (c : String)
    (h : st.has_interface = true) : Op.delNsIface c ∈ teardownOps st c := by
  obtain ⟨e, hi, ov, onp, nr⟩ := st
  cases hi <;> cases ov <;> cases onp <;> simp_all [teardownOps]

theorem teardown_mem_delOvsPort (st : NetworkState) (c : String)
    (h : st.ovs_port_exists = true) :
    Op.delOvsPort (vethName c) ∈ teardownOps st c := by
  obtain ⟨e, hi, ov, onp, nr⟩ := st
  cases hi <;> cases ov <;> cases onp <;> simp_all [teardownOps]

theorem teardown_mem_delHostVeth (st : NetworkState) (c : String) :
    Op.delHostVeth (vethName c) ∈ teardownOps st c := by
  obtain ⟨e, hi, ov, onp, nr⟩ := st
  cases hi <;> cases ov <;> cases onp <;> simp [teardownOps]

theorem teardown_mem_delOvnPort (st : NetworkState) (c : String)
    (h : st.ovn_port_exists = true) :
    Op.delOvnPort ("lsp-" ++ c) ∈ teardownOps st c := by
  obtain ⟨e, hi, ov, onp, nr⟩ := st
  cases hi <;> cases ov <;> cases onp <;> simp_all [teardownOps]

theorem lookup_of_probe_exists (d : Dock) (net : Net) (c : String)
    (hex : (get_container_network_state d net c).exists_ = true) :
    ∃ ct, lookupContainer d c = some ct := by
  unfold get_container_network_state at hex
  cases hl : lookupContainer d c with
  | none => rw [hl] at hex; simp at hex
  | some ct => exact ⟨ct, rfl⟩

theorem reconcile_repair_split (env : Env) (d : Dock) (net : Net)
    (c ip sw : String) (mac : Option String)
    (hex : (get_container_network_state d net c).exists_ = true)
    (hnr : (get_container_network_state d net c).needs_repair = true) :
    ∃ rebuild, (reconcile_container env d net c ip sw mac).2.2 =
      teardownOps (get_container_network_state d net c) c ++ rebuild := by
  obtain ⟨ct, hct⟩ := lookup_of_probe_exists d net c hex
  unfold reconcile_container
  simp only [hex, hnr, hct, Bool.true_eq_false, if_false]
  split
  · split <;> exact ⟨_, by rw [List.append_assoc]⟩
  · exact ⟨_, rfl⟩

/-- C4: when the probe reports the workload running and in need of repair,
`reconcile_container` first issues only teardown operations — deleting the
namespace interface when present, the bridge port when present, the
host-side veth, and the logical port when present — and only after that
initial teardown segment does the rebuild trace follow, so no repair path
recreates a subset of the layers while keeping another layer's artifact. -/
theorem C4_needs_repair_full_teardown (env : Env) (d : Dock) (net : Net)
    (c ip sw : String) (mac : Option String)
    (hex : (get_container_network_state d net c).exists_ = true)
    (hnr : (get_container_network_state d net c).needs_repair = true) :
    ∃ rebuild,
      (reconcile_container env d net c ip sw mac).2.2 =
        teardownOps (get_container_network_state d net c) c ++ rebuild ∧
      (∀ o ∈ teardownOps (get_container_network_state d net c) c,
        o.isTeardown = true) ∧
      ((get_container_network_state d net c).has_interface = true →
        Op.delNsIface c ∈ teardownOps (get_container_network_state d net c) c) ∧
      ((get_container_network_state d net c).ovs_port_exists = true →
        Op.delOvsPort (vethName c) ∈
          teardownOps (get_container_network_state d net c) c) ∧
      Op.delHostVeth (vethName c) ∈
        teardownOps (get_container_network_state d net c) c ∧
      ((get_container_network_state d net c).ovn_port_exists = true →
        Op.delOvnPort ("lsp-" ++ c) ∈
          teardownOps (get_container_network_state d net c) c) := by
  obtain ⟨rebuild, hsplit⟩ :=
    reconcile_repair_split env d net c ip sw mac hex hnr
  exact ⟨rebuild, hsplit,
    fun o ho => List.all_eq_true.mp (teardownOps_all _ c) o ho,
    fun h => teardown_mem_delNsIface _ c h,
    fun h => teardown_mem_delOvsPort _ c h,
    teardown_mem_delHostVeth _ c,
    fun h => teardown_mem_delOvnPort _ c h⟩

theorem C4_needs_repair_full_teardown_witness :
    ∃ rebuild,
      (reconcile_container allOkEnv reuseDock repairNet "app1" "10.0.0.5"
        "ls-a" none).2.2 =
        teardownOps (get_container_network_state reuseDock repairNet "app1")
          "app1" ++ rebuild ∧
      (∀ o ∈ teardownOps
          (get_container_network_state reuseDock repairNet "app1") "app1",
        o.isTeardown = true) ∧
      ((get_container_network_state reuseDock repairNet "app1").has_interface
          = true →
        Op.delNsIface "app1" ∈ teardownOps
          (get_container_network_state reuseDock repairNet "app1") "app1") ∧
      ((get_container_network_state reuseDock repairNet
          "app1").ovs_port_exists = true →
        Op.delOvsPort (vethName "app1") ∈ teardownOps
          (get_container_network_state reuseDock repairNet "app1") "app1") ∧
      Op.delHostVeth (vethName "app1") ∈ teardownOps
        (get_container_network_state reuseDock repairNet "app1") "app1" ∧
      ((get_container_network_state reuseDock repairNet
          "app1").ovn_port_exists = true →
        Op.delOvnPort ("lsp-" ++ "app1") ∈ teardownOps
          (get_container_network_state reuseDock repairNet "app1") "app1") :=
  C4_needs_repair_full_teardown allOkEnv reuseDock repairNet "app1" "10.0.0.5"
    "ls-a" none (by decide) (by decide)

theorem mem_del_of_cleansUpAfter (veth : String) :
    ∀ l : List Op, cleansUpAfter veth l = true → Op.delHostVeth veth ∈ l := by
  intro l
  induction l with
  | nil => intro h; cases h
  | cons x rest ih =>
    intro h
    unfold cleansUpAfter at h
    split at h
    · exact List.mem_cons_of_mem x (of_decide_eq_true h)
    · exact List.mem_cons_of_mem x (ih h)

theorem cleansUpAfter_cons (veth : String) (x : Op) (l : List Op)
    (h : cleansUpAfter veth l = true) : cleansUpAfter veth (x :: l) = true := by
  unfold cleansUpAfter
  split
  · exact decide_eq_true (mem_del_of_cleansUpAfter veth l h)
  · exact h

theorem cleansUpAfter_here (veth : String) (l : List Op)
    (h : Op.delHostVeth veth ∈ l) :
    cleansUpAfter veth (Op.addVethPair veth :: l) = true := by
  simp [cleansUpAfter, h]

theorem cleansUpAfter_append_left (veth : String) (l2 : List Op)
    (h : cleansUpAfter veth l2 = true) :
    ∀ l1 : List Op, cleansUpAfter veth (l1 ++ l2) = true := by
  intro l1
  induction l1 with
  | nil => exact h
  | cons x rest ih => exact cleansUpAfter_cons veth x _ ih

theorem cleansUpAfter_of_mem (veth : String) (l1 mid : List Op)
    (hadd : Op.addVethPair veth ∈ mid) :
    cleansUpAfter veth (l1 ++ (mid ++ [Op.delHostVeth veth])) = true := by
  obtain ⟨m1, m2, rfl⟩ := List.append_of_mem hadd
  have h2 : cleansUpAfter veth
      (Op.addVethPair veth :: (m2 ++ [Op.delHostVeth veth])) = true :=
    cleansUpAfter_here veth _ (by simp)
  have h3 := cleansUpAfter_append_left veth _ h2 (l1 ++ m1)
  simpa [List.append_assoc] using h3

theorem bindFinish_cases (env : Env) (d : Dock) (net : Net)
    (c v : String) (ops : List Op)
    (hver : env.verifyOk = true) (hrun : containerRunning d c = true)
    (heth : c ∈ net.ethIfaces) :
    (bindFinish env d net c v ops).1 = PyResult.ok true ∨
      ∃ mid, (bindFinish env d net c v ops).2.2 =
        ops ++ (mid ++ [Op.delHostVeth v]) := by
  cases hup : env.bindSetHostUpOk
  · exact Or.inr ⟨[], by simp [bindFinish, hup, vethCleanup]⟩
  · left
    simp [bindFinish, hup, hver, dockerExecHasEth1, hrun, heth]

theorem bindAttach_cases (env : Env) (d : Dock) (net : Net)
    (c v : String) (ops : List Op)
    (hver : env.verifyOk = true) (hrun : containerRunning d c = true)
    (heth : c ∈ net.ethIfaces) :
    (bindAttach env d net c v ops).1 = PyResult.ok true ∨
      ∃ mid, (bindAttach env d net c v ops).2.2 =
        ops ++ (mid ++ [Op.delHostVeth v]) := by
  unfold bindAttach
  split
  · split
    · exact Or.inr ⟨[], by simp [vethCleanup]⟩
    · rcases bindFinish_cases env d
          { net with ovsPorts := v :: net.ovsPorts } c v
          (ops ++ [Op.addOvsPort v]) hver hrun heth with h | ⟨mid, hm⟩
      · exact Or.inl h
      · exact Or.inr ⟨Op.addOvsPort v :: mid,
          by simpa [List.append_assoc] using hm⟩
  · split
    · exact Or.inr ⟨[], by simp [vethCleanup]⟩
    · rcases bindFinish_cases env d net c v
          (ops ++ [Op.setIfaceExternalIds v]) hver hrun heth with h | ⟨mid, hm⟩
      · exact Or.inl h
      · exact Or.inr ⟨Op.setIfaceExternalIds v :: mid,
          by simpa [List.append_assoc] using hm⟩

theorem bindConfigure_cases (env : Env) (d : Dock) (net : Net)
    (c ip mac v : String) (ops : List Op)
    (hver : env.verifyOk = true) (hrun : containerRunning d c = true)
    (heth : c ∈ net.ethIfaces) :
    (bindConfigure env d net c ip mac v ops).1 = PyResult.ok true ∨
      ∃ mid, (bindConfigure env d net c ip mac v ops).2.2 =
        ops ++ (mid ++ [Op.delHostVeth v]) := by
  unfold bindConfigure
  split
  · exact Or.inr ⟨[], by simp [vethCleanup]⟩
  · split
    · exact Or.inr ⟨[Op.setNsMac c mac],
        by simp [vethCleanup, List.append_assoc]⟩
    · split
      · exact Or.inr ⟨[Op.setNsMac c mac, Op.addNsIp c ip],
          by simp [vethCleanup, List.append_assoc]⟩
      · rcases bindAttach_cases env d net c v
            ((((ops ++ [Op.setNsMac c mac]) ++ [Op.addNsIp c ip]) ++
              [Op.setNsUp c]) ++ [Op.addNsRoute c (gwOfIp ip)])
            hver hrun heth with h | ⟨mid, hm⟩
        · exact Or.inl h
        · exact Or.inr ⟨[Op.setNsMac c mac, Op.addNsIp c ip, Op.setNsUp c,
            Op.addNsRoute c (gwOfIp ip)] ++ mid,
            by simpa [List.append_assoc] using hm⟩

theorem bindCreateVeth_cases (env : Env) (d : Dock) (net : Net)
    (c ip mac v : String) (ops : List Op)
    (hver : env.verifyOk = true) (hrun : containerRunning d c = true) :
    (bindCreateVeth env d net c ip mac v ops).1 = PyResult.ok true ∨
      ∃ mid, (bindCreateVeth env d net c ip mac v ops).2.2 =
        ops ++ (mid ++ [Op.delHostVeth v]) := by
  unfold bindCreateVeth
  split
  · exact Or.inr ⟨[], by simp⟩
  · split
    · exact Or.inr ⟨[Op.delHostVeth v, Op.addVethPair v],
        by simp [vethCleanup, List.append_assoc]⟩
    · rcases bindConfigure_cases env d
          { { { net with
                hostVeths := net.hostVeths.filter (fun x => !(x == v)) } with
              hostVeths := v :: ({ net with
                hostVeths :=
                  net.hostVeths.filter (fun x => !(x == v)) }).hostVeths } with
            ethIfaces := c :: net.ethIfaces } c ip mac v
          (((ops ++ [Op.delHostVeth v]) ++ [Op.addVethPair v]) ++
            [Op.moveIfToNs c]) hver hrun (by simp) with h | ⟨mid, hm⟩
      · exact Or.inl h
      · exact Or.inr ⟨[Op.delHostVeth v, Op.addVethPair v, Op.moveIfToNs c] ++
          mid, by simpa [List.append_assoc] using hm⟩

theorem bindPhysical_cases (env : Env) (d : Dock) (net : Net)
    (c ip : String) (mac : Option String) (ops0 : List Op)
    (hver : env.verifyOk = true) (hrun : containerRunning d c = true) :
    (bindPhysical env d net c ip mac ops0).1 = PyResult.ok true ∨
    (bindPhysical env d net c ip mac ops0).2.2 = ops0 ∨
    ∃ mid, (bindPhysical env d net c ip mac ops0).2.2 =
      ops0 ++ (mid ++ [Op.delHostVeth (vethName c)]) := by
  unfold bindPhysical
  dsimp only
  split
  · exact Or.inr (Or.inl rfl)
  · split
    · exact Or.inr (Or.inl rfl)
    · split
      · exact Or.inr (Or.inl rfl)
      · rcases bindCreateVeth_cases env d net c ip (resolveMac env mac)
            (vethName c) ops0 hver hrun with h | ⟨mid, hm⟩
        · exact Or.inl h
        · exact Or.inr (Or.inr ⟨mid, hm⟩)

theorem bind_cases (env : Env) (d : Dock) (net : Net)
    (c sw ip : String) (mac : Option String)
    (hver : env.verifyOk = true) (hrun : containerRunning d c = true) :
    (bind_container_to_ovn env d net c sw ip mac).1 = PyResult.ok true ∨
    (bind_container_to_ovn env d net c sw ip mac).1 = PyResult.exc ∨
    ∃ ops0, Op.addVethPair (vethName c) ∉ ops0 ∧
      ((bind_container_to_ovn env d net c sw ip mac).2.2 = ops0 ∨
       ∃ mid, (bind_container_to_ovn env d net c sw ip mac).2.2 =
         ops0 ++ (mid ++ [Op.delHostVeth (vethName c)])) := by
  unfold bind_container_to_ovn
  dsimp only
  split
  · exact Or.inl rfl
  · split
    · exact Or.inr (Or.inr ⟨[], by simp, Or.inl rfl⟩)
    · rename_i mval nval oval heq
      split at heq
      · split at heq
        · simp only [Option.some.injEq, Prod.mk.injEq] at heq
          obtain ⟨hm1, hm2, hm3⟩ := heq
          subst hm3
          split
          · split
            · rcases bindPhysical_cases env d nval c ip mval _ hver hrun
                with h | h | ⟨mid, hm⟩
              · exact Or.inl h
              · exact Or.inr (Or.inr ⟨_, by simp, Or.inl h⟩)
              · exact Or.inr (Or.inr ⟨_, by simp, Or.inr ⟨mid, hm⟩⟩)
            · split
              · exact Or.inl rfl
              · exact Or.inr (Or.inl rfl)
          · rcases bindPhysical_cases env d nval c ip mval _ hver hrun
              with h | h | ⟨mid, hm⟩
            · exact Or.inl h
            · exact Or.inr (Or.inr ⟨_, by simp, Or.inl h⟩)
            · exact Or.inr (Or.inr ⟨_, by simp, Or.inr ⟨mid, hm⟩⟩)
        · simp at heq
      · simp only [Option.some.injEq, Prod.mk.injEq] at heq
        obtain ⟨hm1, hm2, hm3⟩ := heq
        subst hm3
        split
        · split
          · rcases bindPhysical_cases env d nval c ip mval _ hver hrun
              with h | h | ⟨mid, hm⟩
            · exact Or.inl h
            · exact Or.inr (Or.inr ⟨_, by simp, Or.inl h⟩)
            · exact Or.inr (Or.inr ⟨_, by simp, Or.inr ⟨mid, hm⟩⟩)
          · split
            · exact Or.inl rfl
            · exact Or.inr (Or.inl rfl)
        · rcases bindPhysical_cases env d nval c ip mval _ hver hrun
            with h | h | ⟨mid, hm⟩
          · exact Or.inl h
          · exact Or.inr (Or.inr ⟨_, by simp, Or.inl h⟩)
          · exact Or.inr (Or.inr ⟨_, by simp, Or.inr ⟨mid, hm⟩⟩)

/-- C3 (amended): whenever the binder creates the veth pair and then fails
on moving the peer, setting MAC or IP, bringing links up, or attaching to
the virtual switch — any step other than the final in-container
verification — the host-side veth pair is deleted after its creation before
the function returns False. (The original claim also covered verification
failure; the code returns False there WITHOUT deleting the veth, see the
counterexample.) -/
theorem C3_binder_cleanup_except_verification (env : Env) (d : Dock)
    (net : Net) (c sw ip : String) (mac : Option String)
    (hver : env.verifyOk = true) (hrun : containerRunning d c = true)
    (hfail : (bind_container_to_ovn env d net c sw ip mac).1 =
      PyResult.ok false)
    (hadd : Op.addVethPair (vethName c) ∈
      (bind_container_to_ovn env d net c sw ip mac).2.2) :
    cleansUpAfter (vethName c)
      (bind_container_to_ovn env d net c sw ip mac).2.2 = true := by
  rcases bind_cases env d net c sw ip mac hver hrun
    with h | h | ⟨ops0, hno, h | ⟨mid, hm⟩⟩
  · rw [hfail] at h; simp at h
  · rw [hfail] at h; simp at h
  · rw [h] at hadd; exact absurd hadd hno
  · rw [hm] at hadd
    rw [hm]
    rcases List.mem_append.mp hadd with h1 | h1
    · exact absurd h1 hno
    · rcases List.mem_append.mp h1 with h2 | h2
      · exact cleansUpAfter_of_mem _ _ _ h2
      · simp at h2

theorem C3_binder_cleanup_except_verification_witness :
    cleansUpAfter (vethName "vpc-a-web")
      (bind_container_to_ovn addPortFailEnv bindDock bindNetFresh "vpc-a-web"
        "ls-vpc-a-web" "10.0.1.10" none).2.2 = true :=
  C3_binder_cleanup_except_verification addPortFailEnv bindDock bindNetFresh
    "vpc-a-web" "ls-vpc-a-web" "10.0.1.10" none (by decide) (by decide)
    (by decide) (by decide)

/-- C3 counterexample: with every step succeeding but the final
in-container verification failing, the binder returns False, the veth pair
was created, no deletion of it follows the creation in the trace, and the
host-side veth survives in the final state — against the claim that any
failure after veth creation deletes the pair before returning. -/
theorem C3_counterexample_verification_leaves_veth :
    (bind_container_to_ovn verifyFailEnv bindDock bindNetFresh "vpc-a-web"
      "ls-vpc-a-web" "10.0.1.10" none).1 = PyResult.ok false ∧
    Op.addVethPair "veth-vpc-a-we" ∈
      (bind_container_to_ovn verifyFailEnv bindDock bindNetFresh "vpc-a-web"
        "ls-vpc-a-web" "10.0.1.10" none).2.2 ∧
    cleansUpAfter "veth-vpc-a-we"
      (bind_container_to_ovn verifyFailEnv bindDock bindNetFresh "vpc-a-web"
        "ls-vpc-a-web" "10.0.1.10" none).2.2 = false ∧
    "veth-vpc-a-we" ∈
      (bind_container_to_ovn verifyFailEnv bindDock bindNetFresh "vpc-a-web"
        "ls-vpc-a-web" "10.0.1.10" none).2.1.hostVeths := by
  decide

theorem bindFinish_extends (env : Env) (d : Dock) (net : Net)
    (c v : String) (ops : List Op) :
    ∃ rest, (bindFinish env d net c v ops).2.2 = ops ++ rest := by
  unfold bindFinish
  split
  · exact ⟨[Op.delHostVeth v], by simp [vethCleanup]⟩
  · split <;>
      exact ⟨[Op.setHostUp v, Op.ethtoolOff v, Op.ethtoolOff v,
        Op.ethtoolOff v, Op.ethtoolOff c, Op.ethtoolOff c, Op.ethtoolOff c],
        by simp [List.append_assoc]⟩

theorem bindAttach_extends (env : Env) (d : Dock) (net : Net)
    (c v : String) (ops : List Op) :
    ∃ rest, (bindAttach env d net c v ops).2.2 = ops ++ rest := by
  unfold bindAttach
  split
  · split
    · exact ⟨[Op.delHostVeth v], by simp [vethCleanup]⟩
    · obtain ⟨rest, hr⟩ := bindFinish_extends env d
        { net with ovsPorts := v :: net.ovsPorts } c v
        (ops ++ [Op.addOvsPort v])
      exact ⟨Op.addOvsPort v :: rest, by rw [hr, List.append_assoc]; rfl⟩
  · split
    · exact ⟨[Op.delHostVeth v], by simp [vethCleanup]⟩
    · obtain ⟨rest, hr⟩ := bindFinish_extends env d net c v
        (ops ++ [Op.setIfaceExternalIds v])
      exact ⟨Op.setIfaceExternalIds v :: rest,
        by rw [hr, List.append_assoc]; rfl⟩

theorem bindConfigure_mem_or (env : Env) (d : Dock) (net : Net)
    (c ip mac v : String) (ops : List Op) :
    (bindConfigure env d net c ip mac v ops).1 = PyResult.ok false ∨
      (Op.setNsMac c mac ∈ (bindConfigure env d net c ip mac v ops).2.2 ∧
       Op.addNsIp c ip ∈ (bindConfigure env d net c ip mac v ops).2.2) := by
  unfold bindConfigure
  split
  · exact Or.inl rfl
  · split
    · exact Or.inl rfl
    · split
      · exact Or.inl rfl
      · right
        obtain ⟨rest, hr⟩ := bindAttach_extends env d net c v
          ((((ops ++ [Op.setNsMac c mac]) ++ [Op.addNsIp c ip]) ++
            [Op.setNsUp c]) ++ [Op.addNsRoute c (gwOfIp ip)])
        rw [hr]
        constructor <;> simp

theorem bindCreateVeth_mem_or (env : Env) (d : Dock) (net : Net)
    (c ip mac v : String) (ops : List Op) :
    (bindCreateVeth env d net c ip mac v ops).1 = PyResult.ok false ∨
      (Op.setNsMac c mac ∈ (bindCreateVeth env d net c ip mac v ops).2.2 ∧
       Op.addNsIp c ip ∈ (bindCreateVeth env d net c ip mac v ops).2.2) := by
  unfold bindCreateVeth
  split
  · exact Or.inl rfl
  · split
    · exact Or.inl rfl
    · exact bindConfigure_mem_or env d _ c ip mac v _

theorem bindPhysical_mem_or (env : Env) (d : Dock) (net : Net)
    (c ip : String) (mac : Option String) (ops0 : List Op) :
    (bindPhysical env d net c ip mac ops0).1 = PyResult.ok false ∨
      (Op.setNsMac c (resolveMac env mac) ∈
          (bindPhysical env d net c ip mac ops0).2.2 ∧
       Op.addNsIp c ip ∈ (bindPhysical env d net c ip mac ops0).2.2) := by
  unfold bindPhysical
  dsimp only
  split
  · exact Or.inl rfl
  · split
    · exact Or.inl rfl
    · split
      · exact Or.inl rfl
      · exact bindCreateVeth_mem_or env d net c ip (resolveMac env mac)
          (vethName c) ops0

/-- C6 (amended): when the logical port `lsp-<workload>` already exists
with a nonempty stored addresses string and no MAC is supplied by the
caller or the configuration, a successful bind that performs the physical
attachment configures the namespace interface with the STORED MAC (the
first token of the stored addresses); the IP it configures is always the
caller-supplied one, never the stored one. (The original claim — that both
the stored MAC and the stored IP replace the caller-supplied values — fails
on the code, see the counterexample.) -/
theorem C6_mac_reuse_only_when_unset (env : Env) (d : Dock) (net : Net)
    (c sw ip : String) (p : OvnPort)
    (hfind : net.ovnPorts.find? (fun q => q.name == "lsp-" ++ c) = some p)
    (haddr : (p.addresses == "") = false)
    (hcfg : env.cfgMac c = none)
    (hconn : dockerExecHasEth1 d net c = false)
    (hok : (bind_container_to_ovn env d net c sw ip none).1 =
      PyResult.ok true) :
    Op.setNsMac c ((pySplitWs p.addresses).getD 0 "") ∈
      (bind_container_to_ovn env d net c sw ip none).2.2 ∧
    Op.addNsIp c ip ∈ (bind_container_to_ovn env d net c sw ip none).2.2 := by
  unfold bind_container_to_ovn at hok ⊢
  simp only [withCfgMac, hcfg, hfind, reuseMac, haddr, Bool.not_false,
    if_true, Option.isSome_some, hconn, Bool.and_false, Bool.false_eq_true,
    if_false, Bool.not_true] at hok ⊢
  rcases bindPhysical_mem_or env d net c ip
      (some ((pySplitWs p.addresses).getD 0 "")) [] with h | ⟨h1, h2⟩
  · rw [hok] at h; simp at h
  · exact ⟨by simpa [resolveMac] using h1, h2⟩

theorem C6_mac_reuse_only_when_unset_witness :
    Op.setNsMac "app1"
        ((pySplitWs (OvnPort.mk "lsp-app1" "ls-a" "u1"
          "02:aa 10.0.0.5").addresses).getD 0 "") ∈
      (bind_container_to_ovn allOkEnv reuseDock reuseNet "app1" "ls-a"
        "10.0.0.9" none).2.2 ∧
    Op.addNsIp "app1" "10.0.0.9" ∈
      (bind_container_to_ovn allOkEnv reuseDock reuseNet "app1" "ls-a"
        "10.0.0.9" none).2.2 :=
  C6_mac_reuse_only_when_unset allOkEnv reuseDock reuseNet "app1" "ls-a"
    "10.0.0.9" (OvnPort.mk "lsp-app1" "ls-a" "u1" "02:aa 10.0.0.5")
    (by decide) (by decide) (by decide) (by decide) (by decide)

/-- C6 counterexample: the logical port `lsp-app1` exists with stored
addresses `02:aa 10.0.0.5`, yet a bind called with MAC `02:cc:cc:cc:cc:0c`
and IP `10.0.0.9` configures the attachment with the CALLER-supplied MAC
and IP and never uses the stored ones — the stored addresses are reused
only when no MAC is supplied, and the stored IP is never reused. -/
theorem C6_counterexample_caller_addresses_win :
    (bind_container_to_ovn allOkEnv reuseDock reuseNet "app1" "ls-a"
      "10.0.0.9" (some "02:cc:cc:cc:cc:0c")).1 = PyResult.ok true ∧
    Op.setNsMac "app1" "02:cc:cc:cc:cc:0c" ∈
      (bind_container_to_ovn allOkEnv reuseDock reuseNet "app1" "ls-a"
        "10.0.0.9" (some "02:cc:cc:cc:cc:0c")).2.2 ∧
    Op.addNsIp "app1" "10.0.0.9" ∈
      (bind_container_to_ovn allOkEnv reuseDock reuseNet "app1" "ls-a"
        "10.0.0.9" (some "02:cc:cc:cc:cc:0c")).2.2 ∧
    Op.setNsMac "app1" "02:aa" ∉
      (bind_container_to_ovn allOkEnv reuseDock reuseNet "app1" "ls-a"
        "10.0.0.9" (some "02:cc:cc:cc:cc:0c")).2.2 ∧
    Op.addNsIp "app1" "10.0.0.5" ∉
      (bind_container_to_ovn allOkEnv reuseDock reuseNet "app1" "ls-a"
        "10.0.0.9" (some "02:cc:cc:cc:cc:0c")).2.2 := by
  decide

theorem restart_not_mem_gc_ovs (d : Dock) (net : Net) :
    Op.restartController ∉ (cleanup_stale_ovs_ports d net).2 := by
  simp [cleanup_stale_ovs_ports]

theorem restart_not_mem_gc_ovn (d : Dock) (net : Net) :
    Op.restartController ∉ (cleanup_stale_ovn_ports d net).2 := by
  simp [cleanup_stale_ovn_ports]

theorem restart_not_mem_teardown (st : NetworkState) (c : String) :
    Op.restartController ∉ teardownOps st c := by
  obtain ⟨e, hi, ov, onp, nr⟩ := st
  cases hi <;> cases ov <;> cases onp <;> simp [teardownOps]

theorem restart_not_mem_connectMacStep (env : Env) (c : String)
    (mac : Option String) (mops : List Op)
    (h : connectMacStep env c mac = some mops) :
    Op.restartController ∉ mops := by
  unfold connectMacStep at h
  split at h
  · split at h
    · simp only [Option.some.injEq] at h
      subst h
      simp
    · simp at h
  · simp only [Option.some.injEq] at h
    subst h
    simp

theorem restart_not_mem_connect (env : Env) (d : Dock) (net : Net)
    (c ip br : String) (mac : Option String) :
    Op.restartController ∉
      (connect_container_to_bridge env d net c ip br mac).2.2 := by
  unfold connect_container_to_bridge
  dsimp only
  repeat' split
  all_goals try simp
  all_goals exact restart_not_mem_connectMacStep _ _ _ _ (by assumption)

theorem restart_not_mem_bindFinish (env : Env) (d : Dock) (net : Net)
    (c v : String) (ops : List Op)
    (h : Op.restartController ∉ ops) :
    Op.restartController ∉ (bindFinish env d net c v ops).2.2 := by
  unfold bindFinish
  dsimp only
  repeat' split
  all_goals simp [vethCleanup, h]

theorem restart_not_mem_bindAttach (env : Env) (d : Dock) (net : Net)
    (c v : String) (ops : List Op)
    (h : Op.restartController ∉ ops) :
    Op.restartController ∉ (bindAttach env d net c v ops).2.2 := by
  unfold bindAttach
  split
  · split
    · simp [vethCleanup, h]
    · exact restart_not_mem_bindFinish env d _ c v _ (by simp [h])
  · split
    · simp [vethCleanup, h]
    · exact restart_not_mem_bindFinish env d _ c v _ (by simp [h])

theorem restart_not_mem_bindConfigure (env : Env) (d : Dock) (net : Net)
    (c ip mac v : String) (ops : List Op)
    (h : Op.restartController ∉ ops) :
    Op.restartController ∉ (bindConfigure env d net c ip mac v ops).2.2 := by
  unfold bindConfigure
  dsimp only
  split
  · simp [vethCleanup, h]
  · split
    · simp [vethCleanup, h]
    · split
      · simp [vethCleanup, h]
      · exact restart_not_mem_bindAttach env d _ c v _ (by simp [h])

theorem restart_not_mem_bindCreateVeth (env : Env) (d : Dock) (net : Net)
    (c ip mac v : String) (ops : List Op)
    (h : Op.restartController ∉ ops) :
    Op.restartController ∉ (bindCreateVeth env d net c ip mac v ops).2.2 := by
  unfold bindCreateVeth
  dsimp only
  split
  · simp [h]
  · split
    · simp [vethCleanup, h]
    · exact restart_not_mem_bindConfigure env d _ c ip mac v _ (by simp [h])

theorem restart_not_mem_bindPhysical (env : Env) (d : Dock) (net : Net)
    (c ip : String) (mac : Option String) (ops0 : List Op)
    (h : Op.restartController ∉ ops0) :
    Op.restartController ∉ (bindPhysical env d net c ip mac ops0).2.2 := by
  unfold bindPhysical
  dsimp only
  split
  · exact h
  · split
    · exact h
    · split
      · exact h
      · exact restart_not_mem_bindCreateVeth env d net c ip
          (resolveMac env mac) (vethName c) ops0 h

theorem restart_not_mem_bind (env : Env) (d : Dock) (net : Net)
    (c sw ip : String) (mac : Option String) :
    Op.restartController ∉
      (bind_container_to_ovn env d net c sw ip mac).2.2 := by
  unfold bind_container_to_ovn
  dsimp only
  split
  · simp
  · split
    · simp
    · rename_i mval nval oval heq
      split at heq
      · split at heq
        · simp only [Option.some.injEq, Prod.mk.injEq] at heq
          obtain ⟨hm1, hm2, hm3⟩ := heq
          subst hm3
          split
          · split
            · exact restart_not_mem_bindPhysical env d nval c ip mval _
                (by simp)
            · split
              · simp
              · simp
          · exact restart_not_mem_bindPhysical env d nval c ip mval _
              (by simp)
        · simp at heq
      · simp only [Option.some.injEq, Prod.mk.injEq] at heq
        obtain ⟨hm1, hm2, hm3⟩ := heq
        subst hm3
        split
        · split
          · exact restart_not_mem_bindPhysical env d nval c ip mval _
              (by simp)
          · split
            · simp
            · simp
        · exact restart_not_mem_bindPhysical env d nval c ip mval _ (by simp)

theorem restart_not_mem_reconcile (env : Env) (d : Dock) (net : Net)
    (c ip sw : String) (mac : Option String) :
    Op.restartController ∉
      (reconcile_container env d net c ip sw mac).2.2 := by
  unfold reconcile_container
  dsimp only
  split
  · simp
  · split
    · simp
    · split
      · simp
      · split
        · split <;>
          · intro hm
            rcases List.mem_append.mp hm with hm1 | hm1
            · rcases List.mem_append.mp hm1 with hm2 | hm2
              · exact restart_not_mem_teardown _ c hm2
              · exact restart_not_mem_connect env d _ c ip "br-int" _ hm2
            · exact restart_not_mem_bind env d _ c sw ip _ hm1
        · intro hm
          rcases List.mem_append.mp hm with hm1 | hm1
          · exact restart_not_mem_teardown _ c hm1
          · exact restart_not_mem_connect env d _ c ip "br-int" _ hm1

theorem restart_not_mem_loop (env : Env) (d : Dock) :
    ∀ (cfg : List (String × String × String)) (net : Net),
      Op.restartController ∉ (reconcileLoop env d net cfg).2.2.2 := by
  intro cfg
  induction cfg with
  | nil => intro net; simp [reconcileLoop]
  | cons hd tl ih =>
    intro net
    obtain ⟨c, ip, sw⟩ := hd
    simp only [reconcileLoop]
    cases h1 : (reconcile_container env d net c ip sw none).1 with
    | ok b =>
      cases b <;>
      · simp only [h1]
        intro hm
        rcases List.mem_append.mp hm with hm1 | hm1
        · exact restart_not_mem_reconcile env d net c ip sw none hm1
        · exact ih _ hm1
    | exc =>
      simp only [h1]
      intro hm
      rcases List.mem_append.mp hm with hm1 | hm1
      · exact restart_not_mem_reconcile env d net c ip sw none hm1
      · exact ih _ hm1

theorem reconcileLoop_counts (env : Env) (d : Dock) :
    ∀ (cfg : List (String × String × String)) (net : Net),
      (reconcileLoop env d net cfg).1 + (reconcileLoop env d net cfg).2.1 =
        cfg.length := by
  intro cfg
  induction cfg with
  | nil => intro net; simp [reconcileLoop]
  | cons hd tl ih =>
    intro net
    obtain ⟨c, ip, sw⟩ := hd
    simp only [reconcileLoop]
    have := ih (reconcile_container env d net c ip sw none).2.1
    cases h1 : (reconcile_container env d net c ip sw none).1 with
    | ok b => cases b <;> (simp only [h1, List.length_cons]; omega)
    | exc => simp only [h1, List.length_cons]; omega

/-- C8 (amended): the batch reconciler processes every configured workload
sequentially (success count plus failure count equals the configured list
length, so no early abort), returns True iff the failure count is zero, and
appends at most one ovn-controller restart, placed at the very end of the
trace, exactly when the success count is positive — where success counts
every workload whose reconciliation returned True, INCLUDING workloads that
were already healthy and needed no repair. (The original claim tied the
restart to at least one successful REPAIR; a batch of already-healthy
workloads performs zero repairs yet still restarts the controller, see the
counterexample.) -/
theorem C8_batch_counts_and_single_restart (env : Env) (d : Dock)
    (net : Net) (cfg : List (String × String × String)) :
    ∃ s f pre,
      s = (reconcileLoop env d (cleanup_stale_ovn_ports d
            (cleanup_stale_ovs_ports d net).1).1 cfg).1 ∧
      f = (reconcileLoop env d (cleanup_stale_ovn_ports d
            (cleanup_stale_ovs_ports d net).1).1 cfg).2.1 ∧
      s + f = cfg.length ∧
      (reconcile_all env d net cfg).1 = (f == 0) ∧
      (reconcile_all env d net cfg).2.2 =
        pre ++ (if 0 < s then [Op.restartController] else []) ∧
      Op.restartController ∉ pre ∧
      (reconcile_all env d net cfg).2.2.count Op.restartController =
        (if 0 < s then 1 else 0) := by
  refine ⟨_, _, ((cleanup_stale_ovs_ports d net).2 ++
      (cleanup_stale_ovn_ports d (cleanup_stale_ovs_ports d net).1).2) ++
      (reconcileLoop env d (cleanup_stale_ovn_ports d
        (cleanup_stale_ovs_ports d net).1).1 cfg).2.2.2,
    rfl, rfl, reconcileLoop_counts env d cfg _, rfl, rfl, ?_, ?_⟩
  · intro hm
    rcases List.mem_append.mp hm with h1 | h1
    · rcases List.mem_append.mp h1 with h2 | h2
      · exact restart_not_mem_gc_ovs d net h2
      · exact restart_not_mem_gc_ovn d _ h2
    · exact restart_not_mem_loop env d cfg _ h1
  · have hpre : Op.restartController ∉
        (((cleanup_stale_ovs_ports d net).2 ++
          (cleanup_stale_ovn_ports d (cleanup_stale_ovs_ports d net).1).2) ++
          (reconcileLoop env d (cleanup_stale_ovn_ports d
            (cleanup_stale_ovs_ports d net).1).1 cfg).2.2.2) := by
      intro hm
      rcases List.mem_append.mp hm with h1 | h1
      · rcases List.mem_append.mp h1 with h2 | h2
        · exact restart_not_mem_gc_ovs d net h2
        · exact restart_not_mem_gc_ovn d _ h2
      · exact restart_not_mem_loop env d cfg _ h1
    unfold reconcile_all
    dsimp only
    rw [show (cleanup_stale_ovs_ports d net).2 ++
        (cleanup_stale_ovn_ports d (cleanup_stale_ovs_ports d net).1).2 ++
        (reconcileLoop env d (cleanup_stale_ovn_ports d
          (cleanup_stale_ovs_ports d net).1).1 cfg).2.2.2 ++
        (if 0 < (reconcileLoop env d (cleanup_stale_ovn_ports d
          (cleanup_stale_ovs_ports d net).1).1 cfg).1 then
            [Op.restartController] else []) =
        (((cleanup_stale_ovs_ports d net).2 ++
          (cleanup_stale_ovn_ports d (cleanup_stale_ovs_ports d net).1).2) ++
          (reconcileLoop env d (cleanup_stale_ovn_ports d
            (cleanup_stale_ovs_ports d net).1).1 cfg).2.2.2) ++
        (if 0 < (reconcileLoop env d (cleanup_stale_ovn_ports d
          (cleanup_stale_ovs_ports d net).1).1 cfg).1 then
            [Op.restartController] else []) from rfl]
    rw [List.count_append]
    rw [List.count_eq_zero.mpr hpre]
    rcases Nat.eq_zero_or_pos (reconcileLoop env d (cleanup_stale_ovn_ports d
        (cleanup_stale_ovs_ports d net).1).1 cfg).1 with hz | hp
    · simp [hz]
    · simp [hp]

/-- C8 counterexample: with a single already-healthy workload the batch
performs no repair at all — the whole trace is just the controller restart —
yet ovn-controller IS restarted, because the success count also counts
healthy no-op workloads, against the claim that the restart happens only
when at least one repair succeeded. -/
theorem C8_counterexample_restart_without_repair :
    reconcile_all allOkEnv healthyDock healthyNet healthyCfg =
      (true, healthyNet, [Op.restartController]) := by
  decide

theorem dupIpErrors_ne_nil_of_seen :
    ∀ (l : List ContainerCfg) (seen : List (String × String)),
      (∃ x ∈ l, (seen.find? (fun kv => kv.1 == x.ip)).isSome = true) →
      dupIpErrors l seen ≠ [] := by
  intro l
  induction l with
  | nil => intro seen h; obtain ⟨x, hx, _⟩ := h; cases hx
  | cons c rest ih =>
    intro seen h
    obtain ⟨x, hx, hfind⟩ := h
    rcases List.mem_cons.mp hx with rfl | hx'
    · unfold dupIpErrors
      cases hf : seen.find? (fun kv => kv.1 == x.ip) with
      | none => rw [hf] at hfind; simp at hfind
      | some kv => simp
    · unfold dupIpErrors
      intro hnil
      rcases List.append_eq_nil.mp hnil with ⟨h1, h2⟩
      refine ih ((c.ip, c.name) :: seen) ⟨x, hx', ?_⟩ h2
      by_cases hp : (c.ip == x.ip) = true
      · simp [List.find?, hp]
      · simp only [List.find?, hp]
        exact hfind

theorem dupIpErrors_ne_nil (c1 c2 : ContainerCfg) (hip : c1.ip = c2.ip) :
    ∀ (l1 l2 l3 : List ContainerCfg) (seen : List (String × String)),
      dupIpErrors (l1 ++ c1 :: (l2 ++ c2 :: l3)) seen ≠ [] := by
  intro l1
  induction l1 with
  | nil =>
    intro l2 l3 seen
    simp only [List.nil_append]
    unfold dupIpErrors
    intro hnil
    rcases List.append_eq_nil.mp hnil with ⟨h1, h2⟩
    refine dupIpErrors_ne_nil_of_seen (l2 ++ c2 :: l3)
      ((c1.ip, c1.name) :: seen) ⟨c2, by simp, ?_⟩ h2
    simp [List.find?, hip]
  | cons hd tl ih =>
    intro l2 l3 seen
    simp only [List.cons_append]
    unfold dupIpErrors
    intro hnil
    rcases List.append_eq_nil.mp hnil with ⟨h1, h2⟩
    exact ih l2 l3 ((hd.ip, hd.name) :: seen) h2

theorem dupMacErrors_ne_nil_of_seen :
    ∀ (l : List ContainerCfg) (seen : List (Option String × String)),
      (∃ x ∈ l, (seen.find? (fun kv => kv.1 == x.mac)).isSome = true) →
      dupMacErrors l seen ≠ [] := by
  intro l
  induction l with
  | nil => intro seen h; obtain ⟨x, hx, _⟩ := h; cases hx
  | cons c rest ih =>
    intro seen h
    obtain ⟨x, hx, hfind⟩ := h
    rcases List.mem_cons.mp hx with rfl | hx'
    · unfold dupMacErrors
      cases hf : seen.find? (fun kv => kv.1 == x.mac) with
      | none => rw [hf] at hfind; simp at hfind
      | some kv => simp
    · unfold dupMacErrors
      intro hnil
      rcases List.append_eq_nil.mp hnil with ⟨h1, h2⟩
      refine ih ((c.mac, c.name) :: seen) ⟨x, hx', ?_⟩ h2
      by_cases hp : (c.mac == x.mac) = true
      · simp [List.find?, hp]
      · simp only [List.find?, hp]
        exact hfind

theorem dupMacErrors_ne_nil (c1 c2 : ContainerCfg) (hm : c1.mac = c2.mac) :
    ∀ (l1 l2 l3 : List ContainerCfg) (seen : List (Option String × String)),
      dupMacErrors (l1 ++ c1 :: (l2 ++ c2 :: l3)) seen ≠ [] := by
  intro l1
  induction l1 with
  | nil =>
    intro l2 l3 seen
    simp only [List.nil_append]
    unfold dupMacErrors
    intro hnil
    rcases List.append_eq_nil.mp hnil with ⟨h1, h2⟩
    refine dupMacErrors_ne_nil_of_seen (l2 ++ c2 :: l3)
      ((c1.mac, c1.name) :: seen) ⟨c2, by simp, ?_⟩ h2
    simp [List.find?, hm]
  | cons hd tl ih =>
    intro l2 l3 seen
    simp only [List.cons_append]
    unfold dupMacErrors
    intro hnil
    rcases List.append_eq_nil.mp hnil with ⟨h1, h2⟩
    exact ih l2 l3 ((hd.mac, hd.name) :: seen) h2

theorem cidrOverlapErrors_ne_nil_of_acc :
    ∀ (l : List VpcCfg) (acc : List (Cidr × String)),
      (∃ v ∈ l, ∃ b, v.cidr = some b ∧ ∃ p ∈ acc, cidrOverlaps b p.1 = true) →
      cidrOverlapErrors l acc ≠ [] := by
  intro l
  induction l with
  | nil => intro acc h; obtain ⟨v, hv, _⟩ := h; cases hv
  | cons w rest ih =>
    intro acc h
    obtain ⟨v, hv, b, hb, p, hp, hov⟩ := h
    rcases List.mem_cons.mp hv with rfl | hv'
    · unfold cidrOverlapErrors
      rw [hb]
      dsimp only
      intro hnil
      rcases List.append_eq_nil.mp hnil with ⟨h1, h2⟩
      have hmem : ("CIDR overlap: " ++ v.name ++ " and " ++ p.2) ∈
          acc.filterMap (fun oc =>
            if cidrOverlaps b oc.1 then
              some ("CIDR overlap: " ++ v.name ++ " and " ++ oc.2)
            else none) :=
        List.mem_filterMap.mpr ⟨p, hp, by simp [hov]⟩
      rw [h1] at hmem
      cases hmem
    · unfold cidrOverlapErrors
      cases hw : w.cidr with
      | none => intro hnil; simp at hnil
      | some nw =>
        intro hnil
        rcases List.append_eq_nil.mp hnil with ⟨h1, h2⟩
        exact ih (acc ++ [(nw, w.name)])
          ⟨v, hv', b, hb, p, List.mem_append_left _ hp, hov⟩ h2

theorem cidrOverlapErrors_ne_nil (v1 v2 : VpcCfg) (a b : Cidr)
    (ha : v1.cidr = some a) (hb : v2.cidr = some b)
    (hov : cidrOverlaps b a = true) :
    ∀ (l1 l2 l3 : List VpcCfg) (acc : List (Cidr × String)),
      cidrOverlapErrors (l1 ++ v1 :: (l2 ++ v2 :: l3)) acc ≠ [] := by
  intro l1
  induction l1 with
  | nil =>
    intro l2 l3 acc
    simp only [List.nil_append]
    unfold cidrOverlapErrors
    rw [ha]
    dsimp only
    intro hnil
    rcases List.append_eq_nil.mp hnil with ⟨h1, h2⟩
    exact cidrOverlapErrors_ne_nil_of_acc (l2 ++ v2 :: l3)
      (acc ++ [(a, v1.name)])
      ⟨v2, by simp, b, hb, (a, v1.name), by simp, hov⟩ h2
  | cons hd tl ih =>
    intro l2 l3 acc
    simp only [List.cons_append]
    unfold cidrOverlapErrors
    cases hw : hd.cidr with
    | none => intro hnil; simp at hnil
    | some nw =>
      intro hnil
      rcases List.append_eq_nil.mp hnil with ⟨h1, h2⟩
      exact ih l2 l3 (acc ++ [(nw, hd.name)]) h2

/-- C7 counterexample: a model in which two workloads share the IP
`10.0.1.10` is flagged by `validate_config`, yet the orchestrator setup
command still executes `setup_topology` on it — the orchestrator never
invokes validation, so no rejection happens before topology construction. -/
theorem C7_counterexample_setup_runs_on_invalid_model :
    validate_config dupIpConfig ≠ [] ∧
    MainStep.setupTopology ∈ setupCommand dupIpConfig := by
  decide

/-- C7 (amended): `validate_config` returns a nonempty error list for every
model in which two workloads share an IP, two workloads share a MAC value,
or two parseable VPC CIDRs overlap, and the standalone config-manager
validate command then exits 1; but the orchestrator setup path is not gated
on validation — `setup_topology` is executed even on such a model. (The
original claim that such a model is rejected before topology construction
fails on the code, see the counterexample.) -/
theorem C7_validate_detects_but_setup_not_gated (cfg : NetworkConfig)
    (h : (∃ l1 c1 l2 c2 l3, cfg.containers = l1 ++ c1 :: (l2 ++ c2 :: l3) ∧
            ContainerCfg.ip c1 = ContainerCfg.ip c2) ∨
         (∃ l1 c1 l2 c2 l3, cfg.containers = l1 ++ c1 :: (l2 ++ c2 :: l3) ∧
            ContainerCfg.mac c1 = ContainerCfg.mac c2) ∨
         (∃ l1 v1 l2 v2 l3 a b, cfg.vpcs = l1 ++ v1 :: (l2 ++ v2 :: l3) ∧
            VpcCfg.cidr v1 = some a ∧ VpcCfg.cidr v2 = some b ∧
            cidrOverlaps b a = true)) :
    validate_config cfg ≠ [] ∧ ncmValidateExit cfg = 1 ∧
    MainStep.setupTopology ∈ setupCommand cfg := by
  have hvc : validate_config cfg ≠ [] := by
    unfold validate_config
    intro hnil
    rcases List.append_eq_nil.mp hnil with ⟨h1, hE⟩
    rcases List.append_eq_nil.mp h1 with ⟨h3, hD⟩
    rcases List.append_eq_nil.mp h3 with ⟨h5, hC⟩
    rcases List.append_eq_nil.mp h5 with ⟨hA, hB⟩
    rcases h with ⟨l1, c1, l2, c2, l3, hsp, hk⟩ |
      ⟨l1, c1, l2, c2, l3, hsp, hk⟩ |
      ⟨l1, v1, l2, v2, l3, a, b, hsp, ha, hb, hov⟩
    · exact dupIpErrors_ne_nil c1 c2 hk l1 l2 l3 [] (hsp ▸ hA)
    · exact dupMacErrors_ne_nil c1 c2 hk l1 l2 l3 [] (hsp ▸ hB)
    · exact cidrOverlapErrors_ne_nil v1 v2 a b ha hb hov l1 l2 l3 []
        (hsp ▸ hE)
  refine ⟨hvc, ?_, by simp [setupCommand]⟩
  unfold ncmValidateExit
  rw [if_neg hvc]

theorem C7_validate_detects_but_setup_not_gated_witness :
    validate_config dupIpConfig ≠ [] ∧ ncmValidateExit dupIpConfig = 1 ∧
    MainStep.setupTopology ∈ setupCommand dupIpConfig :=
  C7_validate_detects_but_setup_not_gated dupIpConfig
    (Or.inl ⟨[], ContainerCfg.mk "web-1" "10.0.1.10"
        (some "02:aa:aa:aa:aa:01") "ls-a" "host-1" "vpc-a", [],
      ContainerCfg.mk "web-2" "10.0.1.10" (some "02:aa:aa:aa:aa:02") "ls-a"
        "host-1" "vpc-a", [], rfl, rfl⟩)

end OvsLab
